import Mathlib

/-!
Formal model of the asynchronous media-processing pipeline of the
surtr-media backend (`backend/processing/processing.go`).

The Go functions `isVideoFile`, `getVideoDuration`, `transcodeVideo`,
`processMedia` and `GetJobStatus` are embedded as pure Lean functions.
External effects (SQL statements against the `media` and
`processing_jobs` tables) become explicit transformations of a `St`
record holding both stores; outcomes of the environment (S3 transfers,
the ffmpeg/ffprobe child processes, success or failure of each SQL
statement) are supplied by an `Env` record, so that one evaluation of
`processMedia env msg st` corresponds to one run of the Go handler
under that environment.
-/

/-- Model of Go `filepath.Ext`, scanning the reversed character list:
the suffix starting at the final dot of the final slash-separated
element, empty when that element has no dot. -/
def fileExtGo : List Char → List Char → String
  | [], _ => ""
  | c :: rest, acc =>
    if c = '/' then ""
    else if c = '.' then String.mk ('.' :: acc)
    else fileExtGo rest (c :: acc)

/-- Go `filepath.Ext key` (processing.go line 212). -/
def fileExt (path : String) : String := fileExtGo path.data.reverse []

/-- The fixed allow-list of video container extensions
(processing.go line 213). -/
def videoExts : List String :=
  [".mp4", ".mkv", ".avi", ".mov", ".wmv", ".flv", ".webm", ".m4v", ".mpeg", ".mpg", ".3gp"]

/-- ASCII lowercasing of one character, as `Char.toLower` does. -/
def lowerChar (c : Char) : Char :=
  if 65 ≤ c.toNat ∧ c.toNat ≤ 90 then Char.ofNat (c.toNat + 32) else c

/-- Model of Go `strings.ToLower`: Go lowercases per Unicode, which
agrees with ASCII lowercasing on the alphabet relevant to file
extensions. -/
def strToLower (s : String) : String := String.mk (s.data.map lowerChar)

/-- Go `isVideoFile` (processing.go lines 211-220): lowercase the
extension of the key and test membership in the allow-list. -/
def isVideoFile (key : String) : Bool :=
  let ext := strToLower (fileExt key)
  videoExts.contains ext

/-- Scan a decimal digit sequence, returning the accumulated value,
the number of digits consumed, and the rest of the input. -/
def scanDigits : List Char → Nat → Nat → Nat × Nat × List Char
  | [], v, n => (v, n, [])
  | c :: rest, v, n =>
    if c.isDigit then scanDigits rest (v * 10 + (c.toNat - 48)) (n + 1)
    else (v, n, c :: rest)

/-- Scan an optional sign, returning whether the number is negative. -/
def scanSign : List Char → Bool × List Char
  | '-' :: rest => (true, rest)
  | '+' :: rest => (false, rest)
  | cs => (false, cs)

/-- Scan an exponent part after the mantissa: `none` when an `e`/`E` is
present but not followed by digits (the whole conversion then fails, as
in Go), `some 0` when no exponent marker is present. -/
def scanExp : List Char → Option Int
  | 'e' :: rest =>
    let (eneg, rest2) := scanSign rest
    let (ev, ne, _) := scanDigits rest2 0 0
    if ne = 0 then none else some (if eneg then -(ev : Int) else (ev : Int))
  | 'E' :: rest =>
    let (eneg, rest2) := scanSign rest
    let (ev, ne, _) := scanDigits rest2 0 0
    if ne = 0 then none else some (if eneg then -(ev : Int) else (ev : Int))
  | _ => some 0

/-- Model of `fmt.Sscanf(s, "%f", &duration)` followed by Go's
`int(duration)` truncation toward zero, in exact decimal arithmetic:
optional sign, digits, optional fraction, optional exponent.  `none`
means the conversion fails (no digits at all, or a dangling exponent
marker) and the Go variable keeps its zero value.  Special float
tokens (inf, NaN, hex floats) are not modelled. -/
def scanFloatTrunc (s : String) : Option Int :=
  let (neg, cs) := scanSign s.data
  let (ip, ni, cs1) := scanDigits cs 0 0
  let fracRes : Nat × Nat × List Char :=
    match cs1 with
    | '.' :: rest => scanDigits rest 0 0
    | _ => (0, 0, cs1)
  let fp := fracRes.1
  let nf := fracRes.2.1
  let cs2 := fracRes.2.2
  if ni + nf = 0 then none
  else
    match scanExp cs2 with
    | none => none
    | some e =>
      let mant := ip * 10 ^ nf + fp
      let mag : Nat :=
        if (nf : Int) ≤ e then mant * 10 ^ (e - (nf : Int)).toNat
        else mant / 10 ^ ((nf : Int) - e).toNat
      some (if neg then -(mag : Int) else (mag : Int))

/-- Model of Go `strings.TrimSpace`: drop leading and trailing
whitespace characters. -/
def strTrim (s : String) : String :=
  String.mk (((s.data.dropWhile Char.isWhitespace).reverse.dropWhile Char.isWhitespace).reverse)

/-- Go `getVideoDuration` (processing.go lines 222-238), with the
child-process outcome supplied by the caller: `probeOk` is whether
`ffprobe` exited 0, `stdout` its standard output.  A non-zero exit
returns 0; otherwise the trimmed output is parsed with `Sscanf "%f"`
(a failed parse leaves the duration at its zero value) and truncated
to an integer.  The function is total: no error reaches the caller. -/
def getVideoDuration (probeOk : Bool) (stdout : String) : Int :=
  if probeOk then
    match scanFloatTrunc (strTrim stdout) with
    | some d => d
    | none => 0
  else 0

/-- One row of the `media` table, restricted to the columns touched by
the processing service (`status`, `s3_key_processed`,
`duration_seconds`, `size_bytes`).  The nullable `s3_key_processed`
column starts as the empty string; the Go handler always writes plain
strings to it. -/
structure MediaRow where
  status : String
  s3KeyProcessed : String
  durationSeconds : Int
  sizeBytes : Int
  deriving DecidableEq

/-- One row of the `processing_jobs` table.  `createdAt` models the
`created_at TIMESTAMP DEFAULT NOW()` column as a logical clock value
drawn from `St.clock`. -/
structure JobRow where
  id : String
  mediaId : String
  status : String
  errorMessage : Option String
  startedAt : Bool
  completedAt : Bool
  createdAt : Nat
  deriving DecidableEq

/-- Combined persistent state: the `media` table keyed by id, the
`processing_jobs` table, and a logical clock used for `created_at`
timestamps (`NOW()` is strictly increasing across inserts). -/
structure St where
  media : List (String × MediaRow)
  jobs : List JobRow
  clock : Nat
  deriving DecidableEq

/-- SQL `SELECT ... FROM media WHERE id = $1` on the model: first row
with the given key. -/
def findMedia : List (String × MediaRow) → String → Option MediaRow
  | [], _ => none
  | p :: rest, id => if p.1 = id then some p.2 else findMedia rest id

/-- SQL `UPDATE media SET ... WHERE id = $1` on the model: rewrite
every row with the given key (ids are primary keys, so at most one).
An update matching no row is still a successful statement. -/
def updMedia (m : List (String × MediaRow)) (id : String) (f : MediaRow → MediaRow) :
    List (String × MediaRow) :=
  m.map (fun p => if p.1 = id then (p.1, f p.2) else p)

/-- SQL `SELECT ... FROM processing_jobs WHERE id = $1`. -/
def findJob : List JobRow → String → Option JobRow
  | [], _ => none
  | j :: rest, jid => if j.id = jid then some j else findJob rest jid

/-- SQL `UPDATE processing_jobs SET ... WHERE id = $1`. -/
def updJob (jobs : List JobRow) (jid : String) (f : JobRow → JobRow) : List JobRow :=
  jobs.map (fun j => if j.id = jid then f j else j)

/-- The `INSERT INTO processing_jobs (media_id, status, started_at)
VALUES ($1, 'processing', NOW()) RETURNING id` statement
(processing.go lines 60-64): a new row with status `processing`,
`started_at` set, `created_at` stamped from the clock.  The list keeps
newest rows first, so list order refines `created_at` order. -/
def insertJob (st : St) (jid mid : String) : St :=
  { st with
    jobs := { id := jid, mediaId := mid, status := "processing",
              errorMessage := none, startedAt := true, completedAt := false,
              createdAt := st.clock } :: st.jobs,
    clock := st.clock + 1 }

/-- The `UPDATE media SET status = $status WHERE id = $1` statements
(processing.go lines 70 and 82): unconditional, no check of the prior
status value. -/
def setMediaStatus (st : St) (id status : String) : St :=
  { st with media := updMedia st.media id (fun r => { r with status := status }) }

/-- The `UPDATE media SET status = 'ready', s3_key_processed = $2
WHERE id = $1` statement (processing.go lines 94-98). -/
def setMediaReady (st : St) (id key : String) : St :=
  { st with media :=
      updMedia st.media id (fun r => { r with status := "ready", s3KeyProcessed := key }) }

/-- The `UPDATE media SET duration_seconds = $2 WHERE id = $1`
statement (processing.go line 182). -/
def setMediaDuration (st : St) (id : String) (d : Int) : St :=
  { st with media := updMedia st.media id (fun r => { r with durationSeconds := d }) }

/-- The `UPDATE media SET size_bytes = $2 WHERE id = $1` statement
(processing.go line 206). -/
def setMediaSize (st : St) (id : String) (n : Int) : St :=
  { st with media := updMedia st.media id (fun r => { r with sizeBytes := n }) }

/-- The `UPDATE processing_jobs SET status = 'failed', error_message =
$2, completed_at = NOW() WHERE id = $1` statement (processing.go
lines 84-88). -/
def setJobFailed (st : St) (jid msg : String) : St :=
  let f := fun j => { j with status := "failed", errorMessage := some msg, completedAt := true }
  { st with jobs := updJob st.jobs jid f }

/-- The `UPDATE processing_jobs SET status = 'completed', completed_at
= NOW() WHERE id = $1` statement (processing.go lines 106-110). -/
def setJobCompleted (st : St) (jid : String) : St :=
  let f := fun j => { j with status := "completed", completedAt := true }
  { st with jobs := updJob st.jobs jid f }

deriving instance DecidableEq for Except

/-- The `MediaUploaded` pub/sub event (media.go): media id, storage
key of the original file, owner id. -/
structure MediaUploaded where
  mediaID : String
  s3Key : String
  ownerID : Int
  deriving DecidableEq

/-- Environment of one handler run: the outcome of every external
interaction, in program order.  For a fallible call, `none` (or
`.ok`) means it succeeds and `some e` (or `.error e`) that it fails
with error text `e`; Go errors are modelled by their `Error()`
strings.  SQL statements whose Go errors are discarded with `_, _ =`
carry a `Bool` that tells whether the statement took effect.
`ffmpegOk` is whether the encoder exited 0, `ffmpegOutput` its
combined stdout/stderr, `ffmpegExitErr` the `Error()` text of the
non-zero-exit error (for example `exit status 1`) — Go's
`CombinedOutput` returns the captured output separately from that
error value.  `probeOk`/`probeStdout` describe the ffprobe run. -/
structure Env where
  jobInsert : Except String String
  updProcessing : Option String
  minioClient : Option String
  tempDir : Option String
  getObject : Option String
  createInput : Option String
  copyInput : Option String
  ffmpegOk : Bool
  ffmpegOutput : String
  ffmpegExitErr : String
  probeOk : Bool
  probeStdout : String
  openOutput : Option String
  statSize : Except String Int
  putObject : Option String
  durationWriteOk : Bool
  sizeWriteOk : Bool
  updReady : Option String
  failedWriteOk : Bool
  jobFailedWriteOk : Bool
  jobCompletedWriteOk : Bool
  deriving DecidableEq

/-- Go `transcodeVideo` (processing.go lines 117-209).  Returns the
pair of the Go results `(processedKey string, err error)` — collapsed
into `Except String String` since the key is empty exactly when an
error is returned — together with the media store as left by the
side-effecting duration/size updates.  Control flow in source order:
MinIO client, temp dir, S3 download (GetObject, create file, copy);
then the `isVideoFile` check returning `("", nil)` for non-video
keys; then ffmpeg, whose non-zero exit produces the error `ffmpeg
transcoding failed: <exit error>` (the combined output is only
logged); then the best-effort duration write guarded by `duration >
0`; then the upload of `processed/<mediaID>.mp4` and the best-effort
size write. -/
def transcodeVideo (env : Env) (mediaID s3Key : String) (st : St) :
    Except String String × St :=
  match env.minioClient with
  | some e => (.error ("failed to create MinIO client: " ++ e), st)
  | none =>
  match env.tempDir with
  | some e => (.error ("failed to create temp directory: " ++ e), st)
  | none =>
  match env.getObject with
  | some e => (.error ("failed to get object from S3: " ++ e), st)
  | none =>
  match env.createInput with
  | some e => (.error ("failed to create input file: " ++ e), st)
  | none =>
  match env.copyInput with
  | some e => (.error ("failed to download file: " ++ e), st)
  | none =>
  if isVideoFile s3Key = false then (.ok "", st)
  else if env.ffmpegOk = false then
    (.error ("ffmpeg transcoding failed: " ++ env.ffmpegExitErr), st)
  else
    let duration := getVideoDuration env.probeOk env.probeStdout
    let st1 := if 0 < duration then
        (if env.durationWriteOk then setMediaDuration st mediaID duration else st)
      else st
    let processedKey := "processed/" ++ mediaID ++ ".mp4"
    match env.openOutput with
    | some e => (.error ("failed to open output file: " ++ e), st1)
    | none =>
    match env.statSize with
    | .error e => (.error ("failed to stat output file: " ++ e), st1)
    | .ok size =>
    match env.putObject with
    | some e => (.error ("failed to upload processed file: " ++ e), st1)
    | none =>
    let st2 := if env.sizeWriteOk then setMediaSize st1 mediaID size else st1
    (.ok processedKey, st2)

/-- Go `processMedia` (processing.go lines 55-115), the pub/sub
handler.  Returns the handler's Go error (`none` = nil) and the final
state.  Source order: the ProcessingJob insert, whose failure leaves
`jobID` at its zero value `""` and is only logged; the unconditional
update of `media.status` to `processing`, whose failure is returned;
`transcodeVideo`; on error, the error-ignored updates marking the
media row failed and (when `jobID` is non-empty) the job row failed
with the error text; on success, the update to `ready` with the
processed key, whose failure is returned, then the error-ignored job
completion. -/
def processMedia (env : Env) (msg : MediaUploaded) (st : St) : Option String × St :=
  let jres :=
    match env.jobInsert with
    | .error _ => ("", st)
    | .ok jid => (jid, insertJob st jid msg.mediaID)
  let jobID := jres.1
  let st1 := jres.2
  match env.updProcessing with
  | some e => (some e, st1)
  | none =>
  let st2 := setMediaStatus st1 msg.mediaID "processing"
  match transcodeVideo env msg.mediaID msg.s3Key st2 with
  | (.error e, st3) =>
    let st4 := if env.failedWriteOk then setMediaStatus st3 msg.mediaID "failed" else st3
    let st5 := if jobID ≠ "" then
        (if env.jobFailedWriteOk then setJobFailed st4 jobID e else st4)
      else st4
    (some e, st5)
  | (.ok processedKey, st3) =>
    match env.updReady with
    | some e => (some e, st3)
    | none =>
    let st4 := setMediaReady st3 msg.mediaID processedKey
    let st5 := if jobID ≠ "" then
        (if env.jobCompletedWriteOk then setJobCompleted st4 jobID else st4)
      else st4
    (none, st5)

/-- Go `JobStatusResponse` (processing.go lines 241-245). -/
structure JobStatusResponse where
  mediaID : String
  status : String
  errorMessage : Option String
  deriving DecidableEq

/-- The `SELECT media_id, status, error_message FROM processing_jobs
WHERE media_id = $1 ORDER BY created_at DESC LIMIT 1` query
(processing.go lines 254-260): among the rows referencing the media
id, the one with the greatest `created_at`. -/
def latestJob (st : St) (mid : String) : Option JobRow :=
  (st.jobs.filter (fun j => j.mediaId == mid)).foldl
    (fun acc j =>
      match acc with
      | none => some j
      | some k => if k.createdAt < j.createdAt then some j else some k)
    none

/-- Go `GetJobStatus` (processing.go lines 250-273): read the
most-recently-created job row for the id; when that query yields no
row, fall back to `SELECT id, status FROM media WHERE id = $1` with no
error message; when that also yields nothing, return the error `media
not found`.  The function only reads `St`; it returns no state. -/
def GetJobStatus (st : St) (mediaID : String) : Except String JobStatusResponse :=
  match latestJob st mediaID with
  | some j => .ok { mediaID := j.mediaId, status := j.status, errorMessage := j.errorMessage }
  | none =>
    match findMedia st.media mediaID with
    | some row => .ok { mediaID := mediaID, status := row.status, errorMessage := none }
    | none => .error "media not found"

/-- Does `sub` occur as a contiguous substring of the list? -/
def containsAux (sub : List Char) : List Char → Bool
  | [] => sub.isEmpty
  | c :: rest => sub.isPrefixOf (c :: rest) || containsAux sub rest

/-- Does `sub` occur as a contiguous substring of `s`?  Used to state
that one piece of text is carried inside another. -/
def strContains (s sub : String) : Bool := containsAux sub.data s.data

/-- Environment in which every external interaction succeeds: the job
insert returns id `j1`, ffmpeg exits 0, ffprobe reports 12.5 seconds,
the output file has 1000 bytes. -/
def envAllOk : Env :=
  { jobInsert := .ok "j1", updProcessing := none, minioClient := none, tempDir := none,
    getObject := none, createInput := none, copyInput := none,
    ffmpegOk := true, ffmpegOutput := "", ffmpegExitErr := "",
    probeOk := true, probeStdout := "12.5",
    openOutput := none, statSize := .ok 1000, putObject := none,
    durationWriteOk := true, sizeWriteOk := true, updReady := none,
    failedWriteOk := true, jobFailedWriteOk := true, jobCompletedWriteOk := true }

example :
    processMedia envAllOk ⟨"m1", "original/7/m1/clip.mov", 7⟩
      ⟨[("m1", ⟨"queued", "", 0, 0⟩)], [], 0⟩ =
    (none,
      ⟨[("m1", ⟨"ready", "processed/m1.mp4", 12, 1000⟩)],
       [⟨"j1", "m1", "completed", none, true, true, 0⟩], 1⟩) := by decide

example :
    GetJobStatus
      ⟨[("m1", ⟨"queued", "", 0, 0⟩)],
       [⟨"j1", "m1", "failed", some "boom", true, true, 0⟩,
        ⟨"j2", "m1", "completed", none, true, true, 3⟩], 4⟩ "m1" =
    .ok ⟨"m1", "completed", none⟩ := by decide

example :
    GetJobStatus ⟨[("m1", ⟨"queued", "", 0, 0⟩)], [], 0⟩ "m1" =
    .ok ⟨"m1", "queued", none⟩ := by decide

example :
    GetJobStatus ⟨[], [], 0⟩ "m1" = .error "media not found" := by decide

example : strContains "abc def" "c d" = true := by decide
example : strContains "abc def" "cd" = false := by decide

example : isVideoFile "original/7/m1/clip.mov" = true := by decide

/-- Reading a key after updating that key yields the updated row. -/
theorem findMedia_updMedia_self (m : List (String × MediaRow)) (id : String)
    (f : MediaRow → MediaRow) :
    findMedia (updMedia m id f) id = (findMedia m id).map f := by
  induction m with
  | nil => rfl
  | cons p rest ih =>
    by_cases h : p.1 = id <;> simp [findMedia, updMedia, h] at ih ⊢ <;> exact ih

/-- An update that preserves a projection of every row preserves that
projection of every read. -/
theorem findMedia_updMedia_proj {β : Type} (m : List (String × MediaRow)) (id id' : String)
    (f : MediaRow → MediaRow) (g : MediaRow → β) (hg : ∀ r, g (f r) = g r) :
    (findMedia (updMedia m id f) id').map g = (findMedia m id').map g := by
  induction m with
  | nil => rfl
  | cons p rest ih =>
    obtain ⟨k, r⟩ := p
    by_cases h : k = id
    · subst h
      by_cases h' : k = id'
      · subst h'
        simp [findMedia, updMedia, hg]
      · simp only [updMedia] at ih
        simp [findMedia, updMedia, h', ih]
    · by_cases h' : k = id'
      · subst h'
        simp [findMedia, updMedia, h]
      · simp only [updMedia] at ih
        simp [findMedia, updMedia, h, h', ih]

theorem insertJob_media (st : St) (jid mid : String) :
    (insertJob st jid mid).media = st.media := rfl

theorem setJobFailed_media (st : St) (jid msg : String) :
    (setJobFailed st jid msg).media = st.media := rfl

theorem setJobCompleted_media (st : St) (jid : String) :
    (setJobCompleted st jid).media = st.media := rfl

theorem setMediaStatus_jobs (st : St) (id s : String) :
    (setMediaStatus st id s).jobs = st.jobs := rfl

/-- A string starting with a non-empty literal is non-empty. -/
theorem append_ne_empty (s t : String) (h : 0 < s.length) : s ++ t ≠ "" := by
  intro hc
  have hl := congrArg String.length hc
  simp [String.length_append] at hl
  omega

/-- The result component of `transcodeVideo` does not depend on the
store: the store only feeds the best-effort duration/size writes. -/
theorem transcodeVideo_fst_indep (env : Env) (mid key : String) (st st' : St) :
    (transcodeVideo env mid key st).1 = (transcodeVideo env mid key st').1 := by
  unfold transcodeVideo
  repeat' split <;> try rfl

/-- Every error produced by `transcodeVideo` has non-empty text: each
is a non-empty literal followed by the wrapped cause. -/
theorem transcodeVideo_error_ne_empty (env : Env) (mid key : String) (st : St) (e : String)
    (h : (transcodeVideo env mid key st).1 = .error e) : e ≠ "" := by
  unfold transcodeVideo at h
  repeat' split at h
  all_goals
    first
      | exact Except.noConfusion h
      | (injection h with h; subst h; exact append_ne_empty _ _ (by decide))
example : isVideoFile "original/7/m1/clip.MOV" = true := by decide
example : isVideoFile "original/7/m1/notes.pdf" = false := by decide
example : isVideoFile "original/7/m1/noext" = false := by decide
example : getVideoDuration true "12.75\n" = 12 := by decide
example : getVideoDuration true "N/A" = 0 := by decide
example : getVideoDuration false "12.75" = 0 := by decide
example : getVideoDuration true "-3.5" = -3 := by decide
example : getVideoDuration true "1e3" = 1000 := by decide
example : getVideoDuration true "12e" = 0 := by decide

/-- C8: Duration probing never surfaces an error to its caller: the
probe model is a total function into the integers, a non-zero exit of
ffprobe yields duration 0, stdout that does not parse as a number
yields duration 0, and the success or failure of the surrounding
transcode run does not depend on the probe outcome at all. -/
theorem c8_probe_never_fails (ok : Bool) (out : String) (env : Env) (mid key : String)
    (st : St) (p1 p2 : Bool) (s1 s2 : String) :
    (ok = false → getVideoDuration ok out = 0) ∧
    (scanFloatTrunc (strTrim out) = none → getVideoDuration ok out = 0) ∧
    ((transcodeVideo { env with probeOk := p1, probeStdout := s1 } mid key st).1 =
     (transcodeVideo { env with probeOk := p2, probeStdout := s2 } mid key st).1) := by
  refine ⟨?_, ?_, ?_⟩
  · intro h
    simp [getVideoDuration, h]
  · intro h
    simp [getVideoDuration, h]
  · obtain ⟨ji, up, mc, td, go, ci, cp, fok, fout, fee, pok, pstd, oo, ss, po, dw, sw, ur, fw, jf, jc⟩ := env
    unfold transcodeVideo
    dsimp only
    repeat' split <;> try rfl

/-- C8 witness: a probe failure and a non-numeric probe output (the
literal `N/A` that ffprobe prints for unknown durations) both yield
duration 0. -/
theorem c8_witness :
    getVideoDuration false "12.5" = 0 ∧ getVideoDuration true "N/A" = 0 := by
  constructor
  · exact (c8_probe_never_fails false "12.5" envAllOk "m1" "k" ⟨[], [], 0⟩ true true "" "").1 rfl
  · exact (c8_probe_never_fails true "N/A" envAllOk "m1" "k" ⟨[], [], 0⟩ true true "" "").2.1
      (by decide)

/-- C4: When the lowercased extension of the original storage key is
not in the fixed allow-list and staging of the original file succeeds,
`transcodeVideo` returns the empty processed key with a nil error and
leaves the store untouched — for every possible encoder outcome, so no
encoder invocation can influence the run — and the handler marks the
media row `ready`. -/
theorem c4_nonvideo_no_encoder (env : Env) (msg : MediaUploaded) (st : St) (row : MediaRow)
    (hmc : env.minioClient = none) (htd : env.tempDir = none) (hgo : env.getObject = none)
    (hci : env.createInput = none) (hcp : env.copyInput = none)
    (hext : videoExts.contains (strToLower (fileExt msg.s3Key)) = false)
    (hup : env.updProcessing = none) (hur : env.updReady = none)
    (hrow : findMedia st.media msg.mediaID = some row) :
    (∀ st', transcodeVideo env msg.mediaID msg.s3Key st' = (.ok "", st')) ∧
    (processMedia env msg st).1 = none ∧
    (findMedia (processMedia env msg st).2.media msg.mediaID).map (fun r => r.status) =
      some "ready" := by
  have hvid : isVideoFile msg.s3Key = false := hext
  have htr : ∀ st', transcodeVideo env msg.mediaID msg.s3Key st' = (.ok "", st') := by
    intro st'
    unfold transcodeVideo
    simp [hmc, htd, hgo, hci, hcp, hvid]
  refine ⟨htr, ?_⟩
  unfold processMedia
  cases hj : env.jobInsert with
  | error m =>
    simp only [hj, hup, htr, hur]
    simp [setMediaReady, setMediaStatus, findMedia_updMedia_self, hrow]
  | ok jid =>
    simp only [hj, hup, htr, hur]
    split <;>
      simp [apply_ite, setJobCompleted, setMediaReady, setMediaStatus, insertJob, updJob,
        findMedia_updMedia_self, hrow]

/-- C4 witness: a PDF upload with all staging steps succeeding. -/
theorem c4_witness :
    (processMedia envAllOk ⟨"m1", "original/7/m1/doc.pdf", 7⟩
        ⟨[("m1", ⟨"queued", "", 0, 0⟩)], [], 0⟩).1 = none := by
  exact (c4_nonvideo_no_encoder envAllOk ⟨"m1", "original/7/m1/doc.pdf", 7⟩
    ⟨[("m1", ⟨"queued", "", 0, 0⟩)], [], 0⟩ ⟨"queued", "", 0, 0⟩
    rfl rfl rfl rfl rfl (by decide) rfl rfl (by decide)).2.1

/-- C9: The original file is downloaded before the video-extension
classification is performed: when the S3 fetch fails, the handler
aborts with that error and the media row is marked `failed`, even for
a key whose extension is not in the allow-list, for which no
transcoding would have occurred. -/
theorem c9_download_precedes_classification (env : Env) (msg : MediaUploaded) (st : St)
    (row : MediaRow) (e : String)
    (hmc : env.minioClient = none) (htd : env.tempDir = none)
    (hgo : env.getObject = some e)
    (hvid : isVideoFile msg.s3Key = false)
    (hup : env.updProcessing = none) (hfw : env.failedWriteOk = true)
    (hrow : findMedia st.media msg.mediaID = some row) :
    (processMedia env msg st).1 = some ("failed to get object from S3: " ++ e) ∧
    (findMedia (processMedia env msg st).2.media msg.mediaID).map (fun r => r.status) =
      some "failed" := by
  have htr : ∀ st', transcodeVideo env msg.mediaID msg.s3Key st' =
      (.error ("failed to get object from S3: " ++ e), st') := by
    intro st'
    unfold transcodeVideo
    simp [hmc, htd, hgo]
  unfold processMedia
  cases hj : env.jobInsert with
  | error m =>
    simp only [hj, hup, htr, hfw]
    simp [setMediaStatus, findMedia_updMedia_self, hrow]
  | ok jid =>
    simp only [hj, hup, htr, hfw]
    split <;>
      simp [apply_ite, setJobFailed, setMediaStatus, insertJob, updJob,
        findMedia_updMedia_self, hrow]

/-- C9 witness: a PDF key whose S3 download fails; the handler returns
the transport error and the row ends `failed`. -/
theorem c9_witness :
    (processMedia { envAllOk with getObject := some "connection refused" }
        ⟨"m1", "original/7/m1/doc.pdf", 7⟩ ⟨[("m1", ⟨"queued", "", 0, 0⟩)], [], 0⟩).1 =
      some "failed to get object from S3: connection refused" := by
  exact (c9_download_precedes_classification
    { envAllOk with getObject := some "connection refused" }
    ⟨"m1", "original/7/m1/doc.pdf", 7⟩ ⟨[("m1", ⟨"queued", "", 0, 0⟩)], [], 0⟩
    ⟨"queued", "", 0, 0⟩ "connection refused"
    rfl rfl rfl (by decide) rfl rfl (by decide)).1

/-- C7: `GetJobStatus` returns the media id, status and error message
of the most-recently-created job row referencing the identifier; when
no job row exists it falls back to the media row's status with no
error message; when neither store has the identifier it returns the
`media not found` error.  The function consumes the state and returns
none of it, so neither store is mutated. -/
theorem c7_get_job_status (st : St) (mid : String) :
    (∀ j, latestJob st mid = some j →
      GetJobStatus st mid = .ok ⟨j.mediaId, j.status, j.errorMessage⟩) ∧
    (latestJob st mid = none → ∀ r, findMedia st.media mid = some r →
      GetJobStatus st mid = .ok ⟨mid, r.status, none⟩) ∧
    (latestJob st mid = none → findMedia st.media mid = none →
      GetJobStatus st mid = .error "media not found") := by
  refine ⟨?_, ?_, ?_⟩
  · intro j hj
    simp [GetJobStatus, hj]
  · intro hn r hr
    simp [GetJobStatus, hn, hr]
  · intro hn hr
    simp [GetJobStatus, hn, hr]

/-- C7 witness: an item with no job row and `status = queued` reports
`queued` with no error message. -/
theorem c7_witness :
    GetJobStatus ⟨[("m1", ⟨"queued", "", 0, 0⟩)], [], 0⟩ "m1" =
      .ok ⟨"m1", "queued", none⟩ := by
  exact (c7_get_job_status ⟨[("m1", ⟨"queued", "", 0, 0⟩)], [], 0⟩ "m1").2.1 (by decide)
    ⟨"queued", "", 0, 0⟩ (by decide)

theorem transcodeVideo_jobs (env : Env) (mid key : String) (st : St) :
    (transcodeVideo env mid key st).2.jobs = st.jobs := by
  unfold transcodeVideo
  repeat' split
  all_goals
    by_cases hdur : 0 < getVideoDuration env.probeOk env.probeStdout <;>
      first
        | rfl
        | simp [hdur, apply_ite, setMediaDuration, setMediaSize]

theorem transcodeVideo_media_status (env : Env) (mid key : String) (st : St) (id : String) :
    (findMedia (transcodeVideo env mid key st).2.media id).map (fun r => r.status) =
    (findMedia st.media id).map (fun r => r.status) := by
  unfold transcodeVideo
  repeat' split
  all_goals
    by_cases hdur : 0 < getVideoDuration env.probeOk env.probeStdout <;>
      first
        | rfl
        | simp [hdur, apply_ite, setMediaDuration, setMediaSize, findMedia_updMedia_proj]

theorem transcodeVideo_media_s3key (env : Env) (mid key : String) (st : St) (id : String) :
    (findMedia (transcodeVideo env mid key st).2.media id).map (fun r => r.s3KeyProcessed) =
    (findMedia st.media id).map (fun r => r.s3KeyProcessed) := by
  unfold transcodeVideo
  repeat' split
  all_goals
    by_cases hdur : 0 < getVideoDuration env.probeOk env.probeStdout <;>
      first
        | rfl
        | simp [hdur, apply_ite, setMediaDuration, setMediaSize, findMedia_updMedia_proj]

theorem processMedia_error_run (env : Env) (msg : MediaUploaded) (st st3 : St) (jid e : String)
    (hj : env.jobInsert = .ok jid) (hup : env.updProcessing = none)
    (ht : transcodeVideo env msg.mediaID msg.s3Key
        (setMediaStatus (insertJob st jid msg.mediaID) msg.mediaID "processing") =
      (.error e, st3)) :
    processMedia env msg st =
      (some e,
        if jid ≠ "" then
          (if env.jobFailedWriteOk then
            setJobFailed (if env.failedWriteOk then setMediaStatus st3 msg.mediaID "failed" else st3) jid e
          else (if env.failedWriteOk then setMediaStatus st3 msg.mediaID "failed" else st3))
        else (if env.failedWriteOk then setMediaStatus st3 msg.mediaID "failed" else st3)) := by
  unfold processMedia
  simp only [hj, hup, ht]

theorem processMedia_ok_run (env : Env) (msg : MediaUploaded) (st st3 : St) (jid k : String)
    (hj : env.jobInsert = .ok jid) (hup : env.updProcessing = none)
    (ht : transcodeVideo env msg.mediaID msg.s3Key
        (setMediaStatus (insertJob st jid msg.mediaID) msg.mediaID "processing") =
      (.ok k, st3)) (hur : env.updReady = none) :
    processMedia env msg st =
      (none,
        if jid ≠ "" then
          (if env.jobCompletedWriteOk then setJobCompleted (setMediaReady st3 msg.mediaID k) jid
          else setMediaReady st3 msg.mediaID k)
        else setMediaReady st3 msg.mediaID k) := by
  unfold processMedia
  simp only [hj, hup, ht, hur]

theorem processMedia_updfail_run (env : Env) (msg : MediaUploaded) (st : St) (e : String)
    (hup : env.updProcessing = some e) :
    processMedia env msg st =
      (some e, match env.jobInsert with
        | .error _ => st
        | .ok jid => insertJob st jid msg.mediaID) := by
  unfold processMedia
  cases hj : env.jobInsert <;> simp only [hj, hup]

/-- C5: When the transcode sequence returns an error, the handler sets
the media row's status to `failed`, sets the created job row to status
`failed` with the (non-empty) error text and its completion timestamp
set, and returns that error as a non-nil result. -/
theorem c5_transcode_failure (env : Env) (msg : MediaUploaded) (st : St) (row : MediaRow)
    (jid e : String)
    (hup : env.updProcessing = none) (hj : env.jobInsert = .ok jid) (hjne : jid ≠ "")
    (htr : (transcodeVideo env msg.mediaID msg.s3Key st).1 = .error e)
    (hfw : env.failedWriteOk = true) (hjf : env.jobFailedWriteOk = true)
    (hrow : findMedia st.media msg.mediaID = some row) :
    (processMedia env msg st).1 = some e ∧ e ≠ "" ∧
    (findMedia (processMedia env msg st).2.media msg.mediaID).map (fun r => r.status) =
      some "failed" ∧
    (findJob (processMedia env msg st).2.jobs jid).map
        (fun j => (j.status, j.errorMessage, j.completedAt)) =
      some ("failed", some e, true) := by
  have hne : e ≠ "" := transcodeVideo_error_ne_empty env msg.mediaID msg.s3Key st e htr
  cases hts : transcodeVideo env msg.mediaID msg.s3Key
      (setMediaStatus (insertJob st jid msg.mediaID) msg.mediaID "processing") with
  | mk res st3 =>
    have hres : res = .error e := by
      have h1 := transcodeVideo_fst_indep env msg.mediaID msg.s3Key
        (setMediaStatus (insertJob st jid msg.mediaID) msg.mediaID "processing") st
      rw [hts, htr] at h1
      exact h1
    subst hres
    have hrun := processMedia_error_run env msg st st3 jid e hj hup hts
    have hst3 : (findMedia st3.media msg.mediaID).map (fun r => r.status) =
        some "processing" := by
      have h2 := transcodeVideo_media_status env msg.mediaID msg.s3Key
        (setMediaStatus (insertJob st jid msg.mediaID) msg.mediaID "processing") msg.mediaID
      rw [hts] at h2
      simpa [setMediaStatus, insertJob, findMedia_updMedia_self, hrow] using h2
    obtain ⟨r3, hr3, hr3s⟩ := Option.map_eq_some'.mp hst3
    have hjobs3 : st3.jobs = (insertJob st jid msg.mediaID).jobs := by
      have h3 := transcodeVideo_jobs env msg.mediaID msg.s3Key
        (setMediaStatus (insertJob st jid msg.mediaID) msg.mediaID "processing")
      rw [hts] at h3
      simpa [setMediaStatus] using h3
    rw [hrun]
    refine ⟨rfl, hne, ?_, ?_⟩
    · simp [hjne, hjf, hfw, setJobFailed, setMediaStatus, findMedia_updMedia_self, hr3]
    · simp [hjne, hjf, hfw, setJobFailed, setMediaStatus, hjobs3, insertJob, updJob, findJob]

/-- C5 witness: an S3 upload failure of the processed artifact; the
media row ends `failed`, the job row ends `failed` with the error
text, and the handler returns the error. -/
theorem c5_witness :
    (processMedia { envAllOk with putObject := some "upload timeout" }
        ⟨"m1", "original/7/m1/clip.mov", 7⟩ ⟨[("m1", ⟨"queued", "", 0, 0⟩)], [], 0⟩).1 =
      some "failed to upload processed file: upload timeout" := by
  exact (c5_transcode_failure { envAllOk with putObject := some "upload timeout" }
    ⟨"m1", "original/7/m1/clip.mov", 7⟩ ⟨[("m1", ⟨"queued", "", 0, 0⟩)], [], 0⟩
    ⟨"queued", "", 0, 0⟩ "j1" "failed to upload processed file: upload timeout"
    rfl rfl (by decide) (by decide) rfl rfl (by decide)).1

/-- C10: In a run whose encode succeeds, the `duration_seconds` column
is written only when the probe reports a strictly positive duration:
with a non-positive probe result every row's duration is unchanged,
and with a positive result the probed value is written to the item's
row. -/
theorem c10_duration_write (env : Env) (mid key : String) (st : St)
    (hmc : env.minioClient = none) (htd : env.tempDir = none) (hgo : env.getObject = none)
    (hci : env.createInput = none) (hcp : env.copyInput = none)
    (hvid : isVideoFile key = true) (hff : env.ffmpegOk = true) :
    (getVideoDuration env.probeOk env.probeStdout ≤ 0 →
      ∀ id, (findMedia (transcodeVideo env mid key st).2.media id).map
          (fun r => r.durationSeconds) =
        (findMedia st.media id).map (fun r => r.durationSeconds)) ∧
    (0 < getVideoDuration env.probeOk env.probeStdout → env.durationWriteOk = true →
      (findMedia (transcodeVideo env mid key st).2.media mid).map
          (fun r => r.durationSeconds) =
        (findMedia st.media mid).map
          (fun _ => getVideoDuration env.probeOk env.probeStdout)) := by
  constructor
  · intro hle id
    unfold transcodeVideo
    simp [hmc, htd, hgo, hci, hcp, hvid, hff,
      show ¬ (0 : Int) < getVideoDuration env.probeOk env.probeStdout from by omega]
    repeat' split
    all_goals first
      | rfl
      | simp [setMediaSize, findMedia_updMedia_proj]
  · intro hpos hwd
    unfold transcodeVideo
    simp [hmc, htd, hgo, hci, hcp, hvid, hff, hpos, hwd]
    repeat' split
    all_goals first
      | rfl
      | (cases hfind : findMedia st.media mid <;>
          simp [hfind, setMediaDuration, setMediaSize, findMedia_updMedia_self,
            findMedia_updMedia_proj, Option.map_map])

/-- C10 witness: a probe reporting `N/A` leaves the duration column at
its prior value after a successful encode. -/
theorem c10_witness :
    (findMedia (transcodeVideo { envAllOk with probeStdout := "N/A" } "m1"
        "original/7/m1/clip.mov" ⟨[("m1", ⟨"processing", "", 42, 0⟩)], [], 0⟩).2.media
      "m1").map (fun r => r.durationSeconds) = some 42 := by
  have h := (c10_duration_write { envAllOk with probeStdout := "N/A" } "m1"
    "original/7/m1/clip.mov" ⟨[("m1", ⟨"processing", "", 42, 0⟩)], [], 0⟩
    rfl rfl rfl rfl rfl (by decide) rfl).1 (by decide) "m1"
  rw [h]
  decide

/-- Full characterization of the handler's return value: it depends
only on the status-update outcome, the transcode result and the
ready-update outcome — not on the job insert. -/
theorem processMedia_fst_eq (env : Env) (msg : MediaUploaded) (st : St) :
    (processMedia env msg st).1 =
      (match env.updProcessing with
       | some e => some e
       | none =>
         match (transcodeVideo env msg.mediaID msg.s3Key st).1, env.updReady with
         | .error e, _ => some e
         | .ok _, some e => some e
         | .ok _, none => none) := by
  cases hj : env.jobInsert with
  | error m =>
    cases hup : env.updProcessing with
    | some e => simp [processMedia, hj, hup]
    | none =>
      cases hts : transcodeVideo env msg.mediaID msg.s3Key
          (setMediaStatus st msg.mediaID "processing") with
      | mk res st3 =>
        have h1 := transcodeVideo_fst_indep env msg.mediaID msg.s3Key st
          (setMediaStatus st msg.mediaID "processing")
        rw [hts] at h1
        cases res with
        | error e => simp [processMedia, hj, hup, hts, h1]
        | ok k => cases hur : env.updReady <;> simp [processMedia, hj, hup, hts, hur, h1]
  | ok jid =>
    cases hup : env.updProcessing with
    | some e => simp [processMedia, hj, hup]
    | none =>
      cases hts : transcodeVideo env msg.mediaID msg.s3Key
          (setMediaStatus (insertJob st jid msg.mediaID) msg.mediaID "processing") with
      | mk res st3 =>
        have h1 := transcodeVideo_fst_indep env msg.mediaID msg.s3Key st
          (setMediaStatus (insertJob st jid msg.mediaID) msg.mediaID "processing")
        rw [hts] at h1
        cases res with
        | error e => simp [processMedia, hj, hup, hts, h1]
        | ok k => cases hur : env.updReady <;> simp [processMedia, hj, hup, hts, hur, h1]

/-- The transcode step never reads the job-insert outcome. -/
theorem transcodeVideo_jobInsert_irrel (env : Env) (j : Except String String)
    (mid key : String) (st : St) :
    transcodeVideo { env with jobInsert := j } mid key st = transcodeVideo env mid key st := rfl

/-- C6: The job insert is best-effort while the status update is
load-bearing: the handler's return value is the same whatever the
outcome of the ProcessingJob insert; and when the update setting
`media.status` to `processing` fails, the handler returns exactly that
error with no transcode effect — the final state is the post-insert
state unchanged. -/
theorem c6_insert_nonfatal_update_fatal (env : Env) (msg : MediaUploaded) (st : St) :
    (∀ j1 j2 : Except String String,
      (processMedia { env with jobInsert := j1 } msg st).1 =
      (processMedia { env with jobInsert := j2 } msg st).1) ∧
    (∀ e, env.updProcessing = some e →
      processMedia env msg st =
        (some e, match env.jobInsert with
          | .error _ => st
          | .ok jid => insertJob st jid msg.mediaID)) := by
  constructor
  · intro j1 j2
    rw [processMedia_fst_eq, processMedia_fst_eq]
    simp only [transcodeVideo_jobInsert_irrel]
  · intro e hup
    exact processMedia_updfail_run env msg st e hup

/-- C6 witness: with the status update failing, the handler returns
that error and the only state change is the inserted job row. -/
theorem c6_witness :
    processMedia { envAllOk with updProcessing := some "db down" }
        ⟨"m1", "original/7/m1/clip.mov", 7⟩ ⟨[("m1", ⟨"queued", "", 0, 0⟩)], [], 0⟩ =
      (some "db down",
        insertJob ⟨[("m1", ⟨"queued", "", 0, 0⟩)], [], 0⟩ "j1" "m1") := by
  have h := (c6_insert_nonfatal_update_fatal { envAllOk with updProcessing := some "db down" }
    ⟨"m1", "original/7/m1/clip.mov", 7⟩ ⟨[("m1", ⟨"queued", "", 0, 0⟩)], [], 0⟩).2
    "db down" rfl
  simpa using h

/-- Environment of the C2 counterexample run: ffmpeg exits 1 with a
distinctive combined output. -/
def envFfmpegFail : Env :=
  { envAllOk with
    ffmpegOk := false,
    ffmpegOutput := "Error: invalid data found when processing input",
    ffmpegExitErr := "exit status 1" }

/-- C2 counterexample: ffmpeg exits 1 with combined output `Error:
invalid data found when processing input`.  The stored job
error_message is the wrapped exit error `ffmpeg transcoding failed:
exit status 1`, which does not contain the combined output: the
encoder's output is logged, not carried in the error. -/
theorem c2_counterexample :
    (findJob (processMedia envFfmpegFail
        ⟨"m1", "original/7/m1/clip.mov", 7⟩
        ⟨[("m1", ⟨"queued", "", 0, 0⟩)], [], 0⟩).2.jobs "j1").map (fun j => j.errorMessage) =
      some (some "ffmpeg transcoding failed: exit status 1") ∧
    strContains "ffmpeg transcoding failed: exit status 1"
      envFfmpegFail.ffmpegOutput = false := by
  decide

/-- C2 amended: on a non-zero encoder exit the attempt fails with the
error `ffmpeg transcoding failed: <exit error>` — the wrapped process
exit error, not the combined stdout/stderr, which is only logged — and
that text is returned by the handler and stored as the job row's
error_message, whatever the combined output was. -/
theorem c2_exit_error_stored (env : Env) (msg : MediaUploaded) (st : St) (jid : String)
    (hmc : env.minioClient = none) (htd : env.tempDir = none) (hgo : env.getObject = none)
    (hci : env.createInput = none) (hcp : env.copyInput = none)
    (hvid : isVideoFile msg.s3Key = true) (hff : env.ffmpegOk = false)
    (hup : env.updProcessing = none) (hj : env.jobInsert = .ok jid) (hjne : jid ≠ "")
    (hjf : env.jobFailedWriteOk = true) :
    (processMedia env msg st).1 =
      some ("ffmpeg transcoding failed: " ++ env.ffmpegExitErr) ∧
    (findJob (processMedia env msg st).2.jobs jid).map (fun j => j.errorMessage) =
      some (some ("ffmpeg transcoding failed: " ++ env.ffmpegExitErr)) := by
  have htr : ∀ st', transcodeVideo env msg.mediaID msg.s3Key st' =
      (.error ("ffmpeg transcoding failed: " ++ env.ffmpegExitErr), st') := by
    intro st'
    unfold transcodeVideo
    simp [hmc, htd, hgo, hci, hcp, hvid, hff]
  have hrun := processMedia_error_run env msg st
    (setMediaStatus (insertJob st jid msg.mediaID) msg.mediaID "processing") jid
    ("ffmpeg transcoding failed: " ++ env.ffmpegExitErr) hj hup (htr _)
  rw [hrun]
  refine ⟨rfl, ?_⟩
  simp [hjne, hjf, apply_ite, setJobFailed, setMediaStatus, insertJob, updJob, findJob]

/-- C2 amended-claim witness: concrete failing encode with a distinct
exit error text. -/
theorem c2_witness :
    (processMedia { envAllOk with ffmpegOk := false }
        ⟨"m1", "original/7/m1/clip.mov", 7⟩
        ⟨[("m1", ⟨"queued", "", 0, 0⟩)], [], 0⟩).1 =
      some ("ffmpeg transcoding failed: " ++ envAllOk.ffmpegExitErr) := by
  exact (c2_exit_error_stored
    { envAllOk with ffmpegOk := false }
    ⟨"m1", "original/7/m1/clip.mov", 7⟩ ⟨[("m1", ⟨"queued", "", 0, 0⟩)], [], 0⟩ "j1"
    rfl rfl rfl rfl rfl (by decide) rfl rfl rfl (by decide) rfl).1

/-- C3 counterexample: a successful run over a non-video key on a row
whose processed-storage-key column was non-empty.  The handler's
`UPDATE media SET status = 'ready', s3_key_processed = $2` writes the
empty processed key into the column, so the column changes from
`processed/m1.mp4` to the empty string — it is not left unchanged. -/
theorem c3_counterexample :
    (findMedia (processMedia envAllOk ⟨"m1", "original/7/m1/notes.pdf", 7⟩
        ⟨[("m1", ⟨"ready", "processed/m1.mp4", 5, 100⟩)], [], 0⟩).2.media "m1").map
      (fun r => r.s3KeyProcessed) = some "" ∧
    (findMedia (⟨[("m1", ⟨"ready", "processed/m1.mp4", 5, 100⟩)], [], 0⟩ : St).media
      "m1").map (fun r => r.s3KeyProcessed) = some "processed/m1.mp4" := by
  decide

/-- C3 amended: on a successful run whose transcode step produced an
empty processed key, the handler sets the row to `ready` and writes
the empty processed key into the processed-storage-key column, so the
column is empty afterwards; in particular a column that was already
empty is observationally unchanged. -/
theorem c3_empty_key_written (env : Env) (msg : MediaUploaded) (st : St) (row : MediaRow)
    (hmc : env.minioClient = none) (htd : env.tempDir = none) (hgo : env.getObject = none)
    (hci : env.createInput = none) (hcp : env.copyInput = none)
    (hext : videoExts.contains (strToLower (fileExt msg.s3Key)) = false)
    (hup : env.updProcessing = none) (hur : env.updReady = none)
    (hrow : findMedia st.media msg.mediaID = some row) :
    (findMedia (processMedia env msg st).2.media msg.mediaID).map
        (fun r => (r.status, r.s3KeyProcessed)) = some ("ready", "") := by
  have hvid : isVideoFile msg.s3Key = false := hext
  have htr : ∀ st', transcodeVideo env msg.mediaID msg.s3Key st' = (.ok "", st') := by
    intro st'
    unfold transcodeVideo
    simp [hmc, htd, hgo, hci, hcp, hvid]
  unfold processMedia
  cases hj : env.jobInsert with
  | error m =>
    simp only [hj, hup, htr, hur]
    simp [setMediaReady, setMediaStatus, findMedia_updMedia_self, hrow]
  | ok jid =>
    simp only [hj, hup, htr, hur]
    split <;>
      simp [apply_ite, setJobCompleted, setMediaReady, setMediaStatus, insertJob, updJob,
        findMedia_updMedia_self, hrow]

/-- C3 amended-claim witness: a fresh non-video item whose column was
empty stays empty and becomes ready. -/
theorem c3_witness :
    (findMedia (processMedia envAllOk ⟨"m1", "original/7/m1/doc.pdf", 7⟩
        ⟨[("m1", ⟨"queued", "", 0, 0⟩)], [], 0⟩).2.media "m1").map
      (fun r => (r.status, r.s3KeyProcessed)) = some ("ready", "") := by
  exact c3_empty_key_written envAllOk ⟨"m1", "original/7/m1/doc.pdf", 7⟩
    ⟨[("m1", ⟨"queued", "", 0, 0⟩)], [], 0⟩ ⟨"queued", "", 0, 0⟩
    rfl rfl rfl rfl rfl (by decide) rfl rfl (by decide)

/-- Environment of the redelivered C1 run: the job insert returns the
fresh id `j2` and the S3 download fails. -/
def envRedelivery : Env :=
  { envAllOk with
    jobInsert := .ok "j2",
    getObject := some "connection reset" }

/-- Store state after a completed first run for item `m1`: the row is
`ready` with its processed key and job `j1` is completed. -/
def stCompleted : St :=
  ⟨[("m1", ⟨"ready", "processed/m1.mp4", 12, 1000⟩)],
   [⟨"j1", "m1", "completed", none, true, true, 0⟩], 1⟩

/-- C1: The handler performs no check-and-set claim.  A media item
whose prior run completed (`status = ready`, processed key written,
job `j1` completed) receives a redelivery of the same event; the
second run's S3 download fails.  The code re-runs the pipeline — the
status update to `processing` is unconditional — so the terminal
status changes from `ready` to `failed` and the handler returns an
error instead of acknowledging the already-handled event. -/
theorem c1_redelivery_not_guarded :
    (findMedia (processMedia envRedelivery ⟨"m1", "original/7/m1/clip.mov", 7⟩
        stCompleted).2.media "m1").map (fun r => r.status) = some "failed" ∧
    (processMedia envRedelivery ⟨"m1", "original/7/m1/clip.mov", 7⟩ stCompleted).1 ≠
      none := by
  decide
